import Mathlib

/-!
# Verification of the MPInterfaces measurement pipeline

Shallow embedding of `src/mpinterfaces/measurement.py` (classes
`Measurement`, `MeasurementSolvation`, `MeasurementInterface`).
Python machinery is modelled explicitly:

* Python exceptions become the `PyError` type; a function that can raise
  returns its partial side effects together with an `Option PyError`.
* Python dicts (insertion ordered, last write wins) become association
  lists with unique keys, maintained by `dset` and read by `dget`.
* The filesystem is a predicate `fs : String → Bool` telling which paths
  exist; `os.sep` is the POSIX separator "/".
* The external collaborator `Calibrate.add_job` is not under `src/`; it
  enters only through the events the core emits (`addJobs` lists), as the
  spec describes it.  The result parser (`MPINTVaspDrone` / `BorgQueen`)
  needs no model at all: `measurement.py` never imports either name, so
  `get_energy` raises `NameError` before the parser could run.
-/

set_option autoImplicit false

namespace MPInterfaces

/-- Python exceptions that the measurement module can surface.
`ioError p` stands for the `IOError`/`FileNotFoundError` raised when a
required file at path `p` is missing (`Poscar.from_file`, `shutil.copy`);
`keyError k` for a failed dict lookup; `nameError n` for an unbound name;
`valueError` for a failed sequence unpacking; `indexError` for an
out-of-range list index; `typeError` for an unsupported operation. -/
inductive PyError where
  | ioError (path : String)
  | keyError (key : String)
  | nameError (name : String)
  | valueError (msg : String)
  | indexError
  | typeError (msg : String)
  | attributeError (attr : String)
  deriving Repr, DecidableEq

/-- Python values stored in the INCAR parameter dict and in the
`system.json` identity mapping. -/
inductive PyVal where
  | s (v : String)
  | i (n : Int)
  | ints (l : List Int)
  deriving Repr, DecidableEq

/-- Lookup in an insertion-ordered dict modelled as an association list
(first match; `dset` keeps keys unique). -/
def dget {V : Type} (d : List (String × V)) (k : String) : Option V :=
  match d with
  | [] => none
  | (k1, v) :: rest => if k1 = k then some v else dget rest k

/-- Python dict assignment `d[k] = v`: replace in place if the key is
present (keeping its position), else append at the end. -/
def dset {V : Type} (d : List (String × V)) (k : String) (v : V) :
    List (String × V) :=
  match d with
  | [] => [(k, v)]
  | (k1, v1) :: rest =>
      if k1 = k then (k1, v) :: rest else (k1, v1) :: dset rest k v

/-- A job descriptor; the core only reads its `name`. -/
structure Job where
  name : String
  deriving Repr, DecidableEq

/-- The read-only physical-system description attached to a calibrate
object (`cal.system`): a miller index, a ligand formula
(`system.ligand.composition.formula`) and a ligand count
(`system.n_ligands`). Absence of the attribute chain is modelled by the
handle storing `none` for the whole description. -/
structure PhysSystem where
  miller_index : List Int
  ligandFormula : String
  n_ligands : Nat
  deriving Repr, DecidableEq

/-- The runtime class of a calibrate object, used by
`MeasurementInterface.__init__` (`isinstance` checks against
`CalibrateSlab`, `CalibrateInterface`, `CalibrateMolecule`). -/
inductive CalKind where
  | slab
  | iface
  | molecule
  | other
  deriving Repr, DecidableEq

/-- A calibration handle (a `Calibrate` object as the measurement module
sees it): the mutable INCAR dict, the archived prior-generation jobs and
job directories, the current-generation jobs and job directories, the
POSCAR last read, the optional system description, and the runtime kind. -/
structure Cal where
  incar : List (String × PyVal) := []
  old_jobs : List Job := []
  old_job_dir_list : List String := []
  jobs : List Job := []
  job_dir_list : List String := []
  poscar : Option String := none
  system : Option PhysSystem := none
  kind : CalKind := .other
  deriving Repr, DecidableEq

/-- `name.replace(os.sep, '_').replace('.', '_')`: both replaced strings
are single characters, so the two substring replacements amount to one
character map. -/
def sanitize (s : String) : String :=
  String.mk (s.data.map (fun c => if c = '/' ∨ c = '.' then '_' else c))

/-- Modelled from the spec: `Calibrate.add_job(job_dir)` is an external
collaborator (`mpinterfaces.calibrate`, not under `src/`); per the spec it
registers a new job rooted at the directory, appending to the handle's
current jobs and current job-directory list. -/
def add_job (c : Cal) (jobDir : String) : Cal :=
  { c with jobs := c.jobs ++ [⟨jobDir⟩],
           job_dir_list := c.job_dir_list ++ [jobDir] }

/-- Result of running a setup loop over one handle: the `add_job` calls
made (in order), the last POSCAR source read, and the exception, if one
escaped. -/
structure LoopRes where
  addJobs : List String
  poscar : Option String
  err : Option PyError
  deriving Repr, DecidableEq

/-- The body of `Measurement.setup`'s inner loop
(`for i, jdir in enumerate(cal.old_job_dir_list)`): for each prior
directory, build the new job directory from `old_jobs[i].name`
(IndexError when `old_jobs` is too short), read
`jdir + '/CONTCAR'` via `Poscar.from_file` (IOError when absent), record
it as the POSCAR, and call `add_job`.  An exception aborts the loop,
keeping the `add_job` calls already made. -/
def setupLoop (fs : String → Bool) (base : String) :
    List Job → List String → LoopRes
  | _, [] => ⟨[], none, none⟩
  | [], _ :: _ => ⟨[], none, some .indexError⟩
  | j :: js, jdir :: jdirs =>
      let jobDir := base ++ "/" ++ sanitize j.name ++ "/" ++ "STATIC"
      let contcar := jdir ++ "/" ++ "CONTCAR"
      if fs contcar then
        let r := setupLoop fs base js jdirs
        ⟨jobDir :: r.addJobs, some (r.poscar.getD contcar), r.err⟩
      else
        ⟨[], none, some (.ioError contcar)⟩

/-- Result of `Measurement.setup` on one handle. -/
structure GenRes where
  cal : Cal
  addJobs : List String
  err : Option PyError
  deriving Repr, DecidableEq

/-- `Measurement.setup` restricted to one handle: set
`cal.incar['NSW'] = 0`, then run the derivation loop; `add_job` calls that
happened are applied to the handle even when a later iteration raised. -/
def genSetupCal (fs : String → Bool) (base : String) (c : Cal) : GenRes :=
  let c1 : Cal := { c with incar := dset c.incar "NSW" (.i 0) }
  let r := setupLoop fs base c1.old_jobs c1.old_job_dir_list
  let c2 : Cal := { c1 with poscar := r.poscar.orElse (fun _ => c1.poscar) }
  ⟨r.addJobs.foldl add_job c2, r.addJobs, r.err⟩

/-- The first prior directory of a handle whose `CONTCAR` is missing. -/
def firstMissingContcar (fs : String → Bool) (dirs : List String) : Nat :=
  dirs.findIdx (fun d => !fs (d ++ "/" ++ "CONTCAR"))

/-- Witness handle: one prior job named `gen1/run.1` that ran in directory
`g1`. -/
def c1wCal : Cal :=
  { old_jobs := [⟨"gen1/run.1"⟩], old_job_dir_list := ["g1"] }

/-- Counterexample handle for the missing-artifact claim: two prior jobs,
the first predecessor directory `p` has a `CONTCAR`, the second (`q`) does
not. -/
def c6Cal : Cal :=
  { old_jobs := [⟨"a"⟩, ⟨"b"⟩], old_job_dir_list := ["p", "q"] }

/-- Filesystem for `c6Cal`: only `p/CONTCAR` exists. -/
def c6Fs : String → Bool := fun p => p == "p/CONTCAR"

/-- `Measurement.get_energy(cal)` (lines 85-104): `energies = []`, then
`for job_dir in cal.job_dir_list:` — the first statement of the loop body
is `drone = MPINTVaspDrone(...)`, and neither `MPINTVaspDrone` nor
`BorgQueen` is ever imported or bound in `measurement.py` (its imports at
lines 1-23 bind neither name), so the loop raises `NameError` on its first
iteration, for any handle with a non-empty current job-directory list.
Only a handle with no current job directories reaches the `return`,
yielding the empty energies list; the record collection and the per-energy
debug logging in the loop body are unreachable. -/
def get_energy (c : Cal) : Except PyError (List Rat) :=
  match c.job_dir_list with
  | [] => .ok []
  | _ :: _ => .error (.nameError "MPINTVaspDrone")

/-- Handle for exercising `get_energy`: two current job directories `d0`
and `d1`. -/
def c8Cal : Cal := { job_dir_list := ["d0", "d1"] }

/-- Python sequence unpacking `k, v = s` where `s` is a string: succeeds
exactly when the string has two characters (each becoming a one-character
string). -/
def unpack2 (s : String) : Except PyError (String × String) :=
  match s.data with
  | [a, b] => .ok (String.mk [a], String.mk [b])
  | _ =>
      if s.data.length < 2 then
        .error (.valueError "not enough values to unpack")
      else .error (.valueError "too many values to unpack")

/-- `for k, v in self.sol_params: cal.incar[k] = v` — iterating the
sol-params dict yields its keys; each key string is unpacked as a pair
(ValueError unless it has exactly two characters), and on success the two
characters are written into the INCAR as a mangled key/value pair.
Returns the INCAR after the writes made so far, plus the exception if one
was raised. -/
def solParamsLoop :
    List (String × PyVal) → List (String × PyVal) →
      List (String × PyVal) × Option PyError
  | incar, [] => (incar, none)
  | incar, (k, _) :: rest =>
      match unpack2 k with
      | .error e => (incar, some e)
      | .ok (a, b) => solParamsLoop (dset incar a (.s b)) rest

/-- Result of `MeasurementSolvation.setup` on one handle: the handle after
the run (INCAR writes and any `add_job` applied), the directories created,
the `system.json` manifests written, the `WAVECAR` copies performed
(source, destination), the `add_job` calls made, and the exception, if one
escaped. -/
structure SolRes where
  cal : Cal
  dirsCreated : List String
  manifests : List String
  copies : List (String × String)
  addJobs : List String
  err : Option PyError
  deriving Repr, DecidableEq

/-- `MeasurementSolvation.setup` restricted to one handle: set
`cal.incar['LSOL'] = '.TRUE.'`; build the job directory from
`old_jobs[0].name` (IndexError when there is no prior job); run the
sol-params loop; create the job directory when absent; dump the sol-params
to `system.json`; copy `WAVECAR` from `old_job_dir_list[0]` (IOError when
the file is missing); finally `add_job`.  There is no validation of the
number of prior jobs: indices past 0 are never consulted. -/
def solSetupCal (fs : String → Bool) (base : String)
    (solParams : List (String × PyVal)) (c : Cal) : SolRes :=
  let c1 : Cal := { c with incar := dset c.incar "LSOL" (.s ".TRUE.") }
  match c1.old_jobs with
  | [] => ⟨c1, [], [], [], [], some .indexError⟩
  | j0 :: _ =>
      let jobDir := base ++ "/" ++ sanitize j0.name ++ "/" ++ "SOL"
      let lp := solParamsLoop c1.incar solParams
      let c2 : Cal := { c1 with incar := lp.1 }
      match lp.2 with
      | some e => ⟨c2, [], [], [], [], some e⟩
      | none =>
          let created := if fs jobDir then [] else [jobDir]
          let manifest := jobDir ++ "/" ++ "system.json"
          match c2.old_job_dir_list with
          | [] => ⟨c2, created, [manifest], [], [], some .indexError⟩
          | d0 :: _ =>
              let wavecar := d0 ++ "/" ++ "WAVECAR"
              if fs wavecar then
                ⟨add_job c2 jobDir, created, [manifest],
                  [(wavecar, jobDir ++ "/" ++ "WAVECAR")], [jobDir], none⟩
              else
                ⟨c2, created, [manifest], [], [], some (.ioError wavecar)⟩

/-- The default `sol_params` dict of `MeasurementSolvation.__init__`:
key `EB_K` mapped to 80 and key `TAU` mapped to 0. -/
def defaultSolParams : List (String × PyVal) := [("EB_K", .i 80), ("TAU", .i 0)]

/-- Handle used to exercise the solvation step with the default
sol-params. -/
def c7Cal : Cal := { old_jobs := [⟨"j0"⟩], old_job_dir_list := ["w0"] }

/-- Counterexample handle for the multi-job claim: two prior jobs with two
prior directories. -/
def c4Cal : Cal := { old_jobs := [⟨"a"⟩, ⟨"b"⟩], old_job_dir_list := ["d0", "d1"] }

/-- Filesystem for `c4Cal`: only the first prior directory's `WAVECAR`
exists, and no target directory exists yet. -/
def c4Fs : String → Bool := fun p => p == "d0/WAVECAR"

/-- The archiving loop of `Measurement.__init__`
(`for obj in cal_objs:` at lines 56-60): `obj.old_jobs = obj.jobs` and
`obj.jobs = []` execute, but the next statement reads
`cal.job_dir_list` — and the name `cal` is unbound in this scope when the
module is imported (the loop variable is `obj`) — so a `NameError` is
raised on the first handle, before its `old_job_dir_list` is archived or
its `job_dir_list` reset, and no later handle is touched. -/
def measurementInitLoop : List Cal → List Cal × Option PyError
  | [] => ([], none)
  | c :: _ =>
      ([{ c with old_jobs := c.jobs, jobs := [] }], some (.nameError "cal"))

/-- First handle for exercising `Measurement.__init__`: one current job in
one current job directory. -/
def c3CalA : Cal := { jobs := [⟨"jA"⟩], job_dir_list := ["dA"] }

/-- Second handle for `Measurement.__init__`. -/
def c3CalB : Cal := { jobs := [⟨"jB"⟩], job_dir_list := ["dB"] }

/-- `str(miller_index)` on a Python list of integers, e.g.
`str([1, 0, 0])`. -/
def strMiller (l : List Int) : String :=
  "[" ++ String.intercalate ", " (l.map toString) ++ "]"

/-- The first two loops of `MeasurementInterface.make_measurements`:
`E[keyOf(cal.system)] = self.get_energy(cal)` over a bucket of handles.
Reading `cal.system`'s attributes on a handle without a system raises
`AttributeError`; the `get_energy` call raises `NameError` for any handle
with a pending job directory (see `get_energy`), aborting the loop before
the table entry is assigned. -/
def buildTable (keyOf : PhysSystem → String) :
    List Cal → List (String × List Rat) →
      List (String × List Rat) × Option PyError
  | [], tbl => (tbl, none)
  | c :: rest, tbl =>
      match c.system with
      | none => (tbl, some (.attributeError "system"))
      | some s =>
          match get_energy c with
          | .error e => (tbl, some e)
          | .ok es => buildTable keyOf rest (dset tbl (keyOf s) es)

/-- The interface loop of `make_measurements`: per interface handle,
`key_slab = str(system.miller_index)`,
`key_ligand = system.ligand.composition.formula`,
`E_interfaces[key_slab + key_ligand] = self.get_energy(cal)` (which
raises `NameError` for any handle with a pending job directory), then the
binding-energy expression
`E_interfaces[key] - E_slabs[key_slab] - n_ligands * E_ligands[key_ligand]`
is evaluated left to right: the lookup `E_slabs[key_slab]` raises
`KeyError` when the slab key is missing; otherwise the subtraction of the
two Python lists (empty or not) raises `TypeError`, so the ligand-table
lookup, the assignment to the never-initialized name `E_binding`, and the
rest of the loop are unreachable.  When the interface bucket is empty the
loop body never runs and the final `logger.info` formats the unbound name
`E_binding`, raising `NameError`. -/
def interfaceMMLoop (Eslabs _Eligands : List (String × List Rat)) :
    List Cal → List (String × List Rat) →
      List (String × List Rat) × Option PyError
  | [], Ei => (Ei, some (.nameError "E_binding"))
  | c :: _, Ei =>
      match c.system with
      | none => (Ei, some (.attributeError "system"))
      | some s =>
          let key_slab := strMiller s.miller_index
          let key := key_slab ++ s.ligandFormula
          match get_energy c with
          | .error e => (Ei, some e)
          | .ok es =>
              let Ei2 := dset Ei key es
              match dget Eslabs key_slab with
              | none => (Ei2, some (.keyError key_slab))
              | some _ =>
                  (Ei2,
                    some (.typeError
                      "unsupported operand types for -: list and list"))

/-- `MeasurementInterface.make_measurements` over the handle list, with
the role buckets computed as in `MeasurementInterface.__init__`
(`isinstance` against `CalibrateSlab` / `CalibrateInterface` /
`CalibrateMolecule`).  Returns the three energy tables
(`E_slabs`, `E_ligands`, `E_interfaces`) as built when the exception was
raised, plus the exception. -/
def make_measurements (objs : List Cal) :
    (List (String × List Rat) × List (String × List Rat) ×
      List (String × List Rat)) × Option PyError :=
  let slabs := objs.filter (fun c => c.kind == .slab)
  let ifaces := objs.filter (fun c => c.kind == .iface)
  let ligands := objs.filter (fun c => c.kind == .molecule)
  match buildTable (fun s => strMiller s.miller_index) slabs [] with
  | (Es, some e) => ((Es, [], []), some e)
  | (Es, none) =>
      match buildTable (fun s => s.ligandFormula) ligands [] with
      | (El, some e) => ((Es, El, []), some e)
      | (El, none) =>
          let r := interfaceMMLoop Es El ifaces []
          ((Es, El, r.1), r.2)

/-- Slab handle of the spec's binding-energy example: facet `[1, 0, 0]`,
with its pending run directory `s` (whose run yielded -7). -/
def c2Slab : Cal :=
  { job_dir_list := ["s"], system := some ⟨[1, 0, 0], "", 0⟩, kind := .slab }

/-- Ligand handle of the example: formula `Ligand2`, pending run directory
`l` (whose run yielded -1). -/
def c2Ligand : Cal :=
  { job_dir_list := ["l"], system := some ⟨[], "Ligand2", 0⟩,
    kind := .molecule }

/-- Interface handle of the example: facet `[1, 0, 0]`, ligand `Ligand2`,
ligand count 2, pending run directory `i` (whose run yielded -10). -/
def c2Iface : Cal :=
  { job_dir_list := ["i"], system := some ⟨[1, 0, 0], "Ligand2", 2⟩,
    kind := .iface }

/-- Slab handle with facet `[1, 0, 0]` and no pending job directory, so
its `get_energy` call returns (the empty list). -/
def c2SlabE : Cal := { system := some ⟨[1, 0, 0], "", 0⟩, kind := .slab }

/-- Ligand handle with formula `Ligand2` and no pending job directory. -/
def c2LigandE : Cal :=
  { system := some ⟨[], "Ligand2", 0⟩, kind := .molecule }

/-- Interface handle with facet `[1, 0, 0]`, ligand `Ligand2`, ligand
count 2 and no pending job directory. -/
def c2IfaceE : Cal :=
  { system := some ⟨[1, 0, 0], "Ligand2", 2⟩, kind := .iface }

/-- The identity-dict update performed for one prior-job iteration of
`MeasurementInterface.setup` on a handle of kind `kind` with system
description `sys` (the two try/except blocks at lines 193-202): slab and
interface handles record `d['hkl'] = list(system.miller_index)`, interface
handles additionally `d['ligand'] = system.ligand.composition.formula`;
a missing system description is caught by the bare `except`, only logged,
and leaves `d` — including entries from earlier handles — unchanged. -/
def identityUpdate (kind : CalKind) (sys : Option PhysSystem)
    (d : List (String × PyVal)) : List (String × PyVal) :=
  let d1 := if kind = .slab ∨ kind = .iface then
      match sys with
      | some s => dset d "hkl" (.ints s.miller_index)
      | none => d
    else d
  if kind = .iface then
    match sys with
    | some s => dset d1 "ligand" (.s s.ligandFormula)
    | none => d1
  else d1

/-- Result of the inner loop of `MeasurementInterface.setup` for one
handle: the identity dict after the handle, the `add_job` calls, the
`system.json` manifests written (path and dict contents), the directories
created, the last POSCAR read, and the exception, if one escaped. -/
structure IfaceInnerRes where
  d : List (String × PyVal)
  addJobs : List String
  manifests : List (String × List (String × PyVal))
  dirsCreated : List String
  poscar : Option String
  err : Option PyError
  deriving Repr, DecidableEq

/-- The inner loop of `MeasurementInterface.setup` for one handle,
threading the single identity dict `d` that `setup()` creates once for the
whole run.  Per prior directory: build the job directory (IndexError when
`old_jobs` is too short), read `CONTCAR` (IOError when absent), apply
`identityUpdate`, create the job directory when absent, write `d` to
`system.json` when `d` is non-empty, and `add_job`. -/
def ifaceInner (fs : String → Bool) (base : String) (kind : CalKind)
    (sys : Option PhysSystem) :
    List (String × PyVal) → List Job → List String → IfaceInnerRes
  | d, _, [] => ⟨d, [], [], [], none, none⟩
  | d, [], _ :: _ => ⟨d, [], [], [], none, some .indexError⟩
  | d, j :: js, jdir :: jdirs =>
      let jobDir := base ++ "/" ++ sanitize j.name ++ "/" ++ "STATIC"
      let contcar := jdir ++ "/" ++ "CONTCAR"
      if fs contcar then
        let d2 := identityUpdate kind sys d
        let created := if fs jobDir then [] else [jobDir]
        let mans : List (String × List (String × PyVal)) :=
          if d2.isEmpty then [] else [(jobDir ++ "/" ++ "system.json", d2)]
        let r := ifaceInner fs base kind sys d2 js jdirs
        ⟨r.d, jobDir :: r.addJobs, mans ++ r.manifests,
          created ++ r.dirsCreated, some (r.poscar.getD contcar), r.err⟩
      else ⟨d, [], [], [], none, some (.ioError contcar)⟩

/-- Result of `MeasurementInterface.setup` over the whole handle list. -/
structure IfaceRes where
  cals : List Cal
  d : List (String × PyVal)
  addJobs : List String
  manifests : List (String × List (String × PyVal))
  dirsCreated : List String
  err : Option PyError
  deriving Repr, DecidableEq

/-- `MeasurementInterface.setup`: the identity dict `d` starts out empty
once for the whole traversal (line 184, before the loop over handles), so
identity keys recorded for one handle persist into later handles'
manifests.  Per handle: `incar['NSW'] = 0`, then the inner loop; an
exception aborts the traversal, keeping the handles already mutated. -/
def ifaceSetup (fs : String → Bool) (base : String) :
    List (String × PyVal) → List Cal → IfaceRes
  | d, [] => ⟨[], d, [], [], [], none⟩
  | d, c :: rest =>
      let c1 : Cal := { c with incar := dset c.incar "NSW" (.i 0) }
      let r := ifaceInner fs base c1.kind c1.system d c1.old_jobs
        c1.old_job_dir_list
      let c2 : Cal := r.addJobs.foldl add_job
        { c1 with poscar := r.poscar.orElse (fun _ => c1.poscar) }
      match r.err with
      | some e => ⟨[c2], r.d, r.addJobs, r.manifests, r.dirsCreated, some e⟩
      | none =>
          let t := ifaceSetup fs base r.d rest
          ⟨c2 :: t.cals, t.d, r.addJobs ++ t.addJobs,
            r.manifests ++ t.manifests, r.dirsCreated ++ t.dirsCreated, t.err⟩

/-- Interface handle processed first in the C10 run: facet `[1, 0, 0]`,
ligand `L`. -/
def c10Iface : Cal :=
  { old_jobs := [⟨"ia"⟩], old_job_dir_list := ["ip"],
    system := some ⟨[1, 0, 0], "L", 1⟩, kind := .iface }

/-- Slab handle processed second in the C10 run: facet `[0, 1, 1]`, no
ligand of its own. -/
def c10Slab : Cal :=
  { old_jobs := [⟨"sa"⟩], old_job_dir_list := ["sp"],
    system := some ⟨[0, 1, 1], "", 0⟩, kind := .slab }

/-- Filesystem for the C10 run: both predecessors have a `CONTCAR`, no
target directory exists yet. -/
def c10Fs : String → Bool := fun p => p == "ip/CONTCAR" || p == "sp/CONTCAR"

/-! ## Theorems -/

theorem dget_dset_self {V : Type} (d : List (String × V)) (k : String)
    (v : V) : dget (dset d k v) k = some v := by
  induction d with
  | nil => simp [dset, dget]
  | cons p rest ih =>
      obtain ⟨k1, v1⟩ := p
      by_cases h : k1 = k <;> simp [dset, dget, h, ih]

theorem dget_dset_ne {V : Type} (d : List (String × V)) (k k2 : String)
    (v : V) (hne : k ≠ k2) : dget (dset d k v) k2 = dget d k2 := by
  induction d with
  | nil => simp [dset, dget, hne]
  | cons p rest ih =>
      obtain ⟨k1, v1⟩ := p
      by_cases h : k1 = k
      · subst h; simp [dset, dget, hne]
      · simp [dset, dget, h, ih]

/-- Keys only ever accumulate under dict assignment. -/
theorem dget_dset_isSome {V : Type} (d : List (String × V)) (k k2 : String)
    (v : V) (h : (dget d k2).isSome) : (dget (dset d k v) k2).isSome := by
  by_cases hk : k = k2
  · subst hk; simp [dget_dset_self]
  · rwa [dget_dset_ne d k k2 v hk]

/-- When no exception escapes, the generic derivation loop consumed every
prior directory and produced exactly the directory names derived from the
paired prior jobs. -/
theorem setupLoop_success (fs : String → Bool) (base : String) :
    ∀ (dirs : List String) (jobs : List Job),
    (setupLoop fs base jobs dirs).err = none →
    dirs.length ≤ jobs.length ∧
    (setupLoop fs base jobs dirs).addJobs =
      (jobs.take dirs.length).map
        (fun j => base ++ "/" ++ sanitize j.name ++ "/" ++ "STATIC") := by
  intro dirs
  induction dirs with
  | nil =>
      intro jobs _
      cases jobs <;> simp [setupLoop]
  | cons d ds ih =>
      intro jobs h
      cases jobs with
      | nil => simp [setupLoop] at h
      | cons j js =>
          by_cases hc : fs (d ++ "/" ++ "CONTCAR") = true
          · have h2 : (setupLoop fs base js ds).err = none := by
              simpa [setupLoop, hc] using h
            obtain ⟨hlen, heq⟩ := ih js h2
            refine ⟨Nat.succ_le_succ hlen, ?_⟩
            simp [setupLoop, hc, heq]
          · simp [setupLoop, hc] at h

/-- When some prior directory lacks its `CONTCAR` (and the prior-job list
is at least as long as the directory list), the loop raises an IOError
naming the first such `CONTCAR` path, and exactly the indices before it
received an `add_job` call. -/
theorem setupLoop_fail (fs : String → Bool) (base : String) :
    ∀ (dirs : List String) (jobs : List Job),
    dirs.length ≤ jobs.length →
    firstMissingContcar fs dirs < dirs.length →
    (setupLoop fs base jobs dirs).err =
      some (.ioError
        (dirs.getD (firstMissingContcar fs dirs) "" ++ "/" ++ "CONTCAR")) ∧
    (setupLoop fs base jobs dirs).addJobs.length =
      firstMissingContcar fs dirs := by
  intro dirs
  induction dirs with
  | nil => intro jobs _ hk; simp [firstMissingContcar] at hk
  | cons d ds ih =>
      intro jobs hlen hk
      cases jobs with
      | nil => simp at hlen
      | cons j js =>
          by_cases hc : fs (d ++ "/" ++ "CONTCAR") = true
          · have hfi : firstMissingContcar fs (d :: ds) =
                firstMissingContcar fs ds + 1 := by
              simp [firstMissingContcar, List.findIdx_cons, hc]
            have hk2 : firstMissingContcar fs ds < ds.length := by
              rw [hfi] at hk
              simp only [List.length_cons] at hk
              omega
            obtain ⟨he, hl⟩ := ih js (Nat.le_of_succ_le_succ hlen) hk2
            refine ⟨?_, ?_⟩
            · simpa [setupLoop, hc, hfi] using he
            · simpa [setupLoop, hc, hfi] using congrArg Nat.succ hl
          · have hfi : firstMissingContcar fs (d :: ds) = 0 := by
              simp [firstMissingContcar, List.findIdx_cons, hc]
            simp [setupLoop, hc, hfi]

/-- Applying a run of `add_job` calls appends exactly those directories to
the handle's current job-directory list. -/
theorem foldl_add_job_dirs (adds : List String) :
    ∀ c : Cal, (adds.foldl add_job c).job_dir_list = c.job_dir_list ++ adds := by
  induction adds with
  | nil => intro c; simp
  | cons a rest ih =>
      intro c
      simp [List.foldl_cons, ih, add_job]

/-- C1: when the generic derivation `setup()` (`Measurement.setup`)
processes a handle without raising, exactly one `add_job` call is made per
entry of the handle's prior job-directory list, so the number of newly
registered job directories equals the number of prior job directories. -/
theorem C1_one_job_per_prior_dir (fs : String → Bool) (base : String)
    (c : Cal) (h : (genSetupCal fs base c).err = none) :
    (genSetupCal fs base c).addJobs.length = c.old_job_dir_list.length ∧
    (genSetupCal fs base c).cal.job_dir_list =
      c.job_dir_list ++ (genSetupCal fs base c).addJobs := by
  have h2 : (setupLoop fs base c.old_jobs c.old_job_dir_list).err = none := by
    simpa [genSetupCal] using h
  obtain ⟨hlen, heq⟩ := setupLoop_success fs base c.old_job_dir_list c.old_jobs h2
  constructor
  · simp [genSetupCal, heq, List.length_take, Nat.min_eq_left hlen]
  · simp [genSetupCal, foldl_add_job_dirs]

/-- Witness for C1: a handle with one prior directory (whose `CONTCAR`
exists) gets exactly one new job directory registered. -/
theorem C1_one_job_per_prior_dir_witness :
    (genSetupCal (fun p => p == "g1/CONTCAR") "Meas" c1wCal).err = none ∧
    ((genSetupCal (fun p => p == "g1/CONTCAR") "Meas" c1wCal).addJobs.length =
        c1wCal.old_job_dir_list.length ∧
      (genSetupCal (fun p => p == "g1/CONTCAR") "Meas" c1wCal).cal.job_dir_list =
        c1wCal.job_dir_list ++
          (genSetupCal (fun p => p == "g1/CONTCAR") "Meas" c1wCal).addJobs) :=
  ⟨by decide,
   C1_one_job_per_prior_dir (fun p => p == "g1/CONTCAR") "Meas" c1wCal
     (by decide)⟩

/-- Counterexample to C6 as stated: handle `c6Cal` has a predecessor
directory (`q`) lacking `CONTCAR`; `setup()` does fail naming
`q/CONTCAR`, but an `add_job` call for the earlier prior job already
happened, so it is not true that no `add_job` call occurs for that
handle's derivation. -/
theorem C6_counterexample :
    (genSetupCal c6Fs "Meas" c6Cal).err = some (.ioError "q/CONTCAR") ∧
    (genSetupCal c6Fs "Meas" c6Cal).addJobs = ["Meas/a/STATIC"] := by
  decide

/-- C6 (amended): when some predecessor directory of a handle lacks
`CONTCAR`, the generic `setup()` fails with an IOError naming the first
such `CONTCAR` path, no `add_job` call occurs for the failing prior job or
any later one, and the prior jobs before it have already received their
`add_job` call (no rollback); in particular, when the first predecessor
directory is the offending one, no `add_job` call occurs at all. -/
theorem C6_missing_contcar_fails (fs : String → Bool) (base : String)
    (c : Cal) (hlen : c.old_job_dir_list.length ≤ c.old_jobs.length)
    (hk : firstMissingContcar fs c.old_job_dir_list <
      c.old_job_dir_list.length) :
    (genSetupCal fs base c).err =
      some (.ioError
        (c.old_job_dir_list.getD (firstMissingContcar fs c.old_job_dir_list) ""
          ++ "/" ++ "CONTCAR")) ∧
    (genSetupCal fs base c).addJobs.length =
      firstMissingContcar fs c.old_job_dir_list := by
  have := setupLoop_fail fs base c.old_job_dir_list c.old_jobs hlen hk
  simpa [genSetupCal] using this

/-- Witness for the amended C6: on `c6Cal` the first missing `CONTCAR` is
at index 1, the failure names `q/CONTCAR`, and exactly one earlier
`add_job` call was made. -/
theorem C6_missing_contcar_fails_witness :
    (genSetupCal c6Fs "Meas" c6Cal).err = some (.ioError "q/CONTCAR") ∧
    (genSetupCal c6Fs "Meas" c6Cal).addJobs.length = 1 :=
  C6_missing_contcar_fails c6Fs "Meas" c6Cal (by decide) (by decide)

/-- C8 (code bug): `get_energy` cannot return an energy list for any
handle with a current job directory — the first statement of its loop body
reads `MPINTVaspDrone`, a name `measurement.py` never imports, so it
raises `NameError` on the first directory (here `d0` of `c8Cal`) instead
of collecting records and logging; only a handle with no current job
directories returns, with the empty list. -/
theorem C8_get_energy_name_error :
    get_energy c8Cal = .error (.nameError "MPINTVaspDrone") ∧
    get_energy { c8Cal with job_dir_list := [] } = .ok [] :=
  ⟨rfl, rfl⟩

/-- Counterexample to C4 as stated: handle `c4Cal` has two prior jobs, yet
the solvation `setup()` (with an empty sol-params dict) raises nothing,
creates a job directory, copies a `WAVECAR` and registers a job — there is
no multi-job validation at all. -/
theorem C4_counterexample :
    (solSetupCal c4Fs "MeasSol" [] c4Cal).err = none ∧
    (solSetupCal c4Fs "MeasSol" [] c4Cal).dirsCreated = ["MeasSol/a/SOL"] ∧
    (solSetupCal c4Fs "MeasSol" [] c4Cal).copies =
      [("d0/WAVECAR", "MeasSol/a/SOL/WAVECAR")] ∧
    (solSetupCal c4Fs "MeasSol" [] c4Cal).addJobs = ["MeasSol/a/SOL"] := by
  decide

/-- C4 (amended): the solvation `setup()` performs no multi-job
validation: for a handle with more than one prior job (whose sol-params
loop succeeds and whose first prior directory has a `WAVECAR`), it
silently derives a single job from the first prior job — one `add_job`
call and one `WAVECAR` copy from the first prior directory — ignoring all
remaining prior jobs, instead of raising a multi-job error. -/
theorem C4_no_multi_job_validation (fs : String → Bool) (base : String)
    (solParams : List (String × PyVal)) (c : Cal) (j0 : Job) (js : List Job)
    (d0 : String) (ds : List String)
    (hj : c.old_jobs = j0 :: js)
    (hd : c.old_job_dir_list = d0 :: ds)
    (_hmulti : ds ≠ [])
    (hlp : (solParamsLoop (dset c.incar "LSOL" (.s ".TRUE.")) solParams).2 =
      none)
    (hw : fs (d0 ++ "/" ++ "WAVECAR") = true) :
    (solSetupCal fs base solParams c).err = none ∧
    (solSetupCal fs base solParams c).addJobs =
      [base ++ "/" ++ sanitize j0.name ++ "/" ++ "SOL"] ∧
    (solSetupCal fs base solParams c).copies =
      [(d0 ++ "/" ++ "WAVECAR",
        base ++ "/" ++ sanitize j0.name ++ "/" ++ "SOL" ++ "/" ++ "WAVECAR")] := by
  simp [solSetupCal, hj, hd, hlp, hw]

/-- Witness for the amended C4: on `c4Cal` (two prior jobs) the solvation
setup succeeds with exactly one derived job and one copy. -/
theorem C4_no_multi_job_validation_witness :
    (solSetupCal c4Fs "MeasSol" [] c4Cal).err = none ∧
    (solSetupCal c4Fs "MeasSol" [] c4Cal).addJobs =
      ["MeasSol" ++ "/" ++ sanitize (Job.mk "a").name ++ "/" ++ "SOL"] ∧
    (solSetupCal c4Fs "MeasSol" [] c4Cal).copies =
      [("d0" ++ "/" ++ "WAVECAR",
        "MeasSol" ++ "/" ++ sanitize (Job.mk "a").name ++ "/" ++ "SOL" ++ "/" ++
          "WAVECAR")] :=
  C4_no_multi_job_validation c4Fs "MeasSol" [] c4Cal ⟨"a"⟩ [⟨"b"⟩] "d0" ["d1"]
    (by decide) (by decide) (by decide) (by decide) (by decide)

/-- C7: the solvation `setup()` does set the implicit-solvent flag
(`LSOL = '.TRUE.'`), but with the default sol-params dict the parameter
loop iterates the dict's keys and tries to unpack each key string as a
pair, so it raises `ValueError` on the four-character key `EB_K` instead
of writing the configured key/value pairs into the INCAR. -/
theorem C7_sol_params_value_error :
    (solSetupCal (fun _ => true) "MeasSol" defaultSolParams c7Cal).err =
      some (.valueError "too many values to unpack") ∧
    dget (solSetupCal (fun _ => true) "MeasSol" defaultSolParams c7Cal).cal.incar
      "LSOL" = some (.s ".TRUE.") ∧
    dget (solSetupCal (fun _ => true) "MeasSol" defaultSolParams c7Cal).cal.incar
      "EB_K" = none ∧
    (solSetupCal (fun _ => true) "MeasSol" defaultSolParams c7Cal).addJobs =
      [] := by
  decide

/-- C9: derived job directory naming. For the generic `setup()`, every
registered directory is `base/<sanitized prior-job name>/STATIC`, pairing
prior job `i` with prior directory `i`; for the solvation `setup()`, the
single registered directory is `base/<sanitized first prior-job
name>/SOL`.  `sanitize` replaces every path separator and every literal
dot with an underscore. -/
theorem C9_job_dir_convention :
    (∀ (fs : String → Bool) (base : String) (c : Cal),
      (genSetupCal fs base c).err = none →
      (genSetupCal fs base c).addJobs =
        (c.old_jobs.take c.old_job_dir_list.length).map
          (fun j => base ++ "/" ++ sanitize j.name ++ "/" ++ "STATIC")) ∧
    (∀ (fs : String → Bool) (base : String) (sp : List (String × PyVal))
       (c : Cal),
      (solSetupCal fs base sp c).err = none →
      (solSetupCal fs base sp c).addJobs =
        [base ++ "/" ++ sanitize ((c.old_jobs.getD 0 ⟨""⟩).name) ++ "/" ++
          "SOL"]) := by
  constructor
  · intro fs base c h
    have h2 : (setupLoop fs base c.old_jobs c.old_job_dir_list).err = none := by
      simpa [genSetupCal] using h
    obtain ⟨-, heq⟩ :=
      setupLoop_success fs base c.old_job_dir_list c.old_jobs h2
    simpa [genSetupCal] using heq
  · intro fs base sp c h
    cases hj : c.old_jobs with
    | nil => simp [solSetupCal, hj] at h
    | cons j0 rest =>
        cases hlp : (solParamsLoop (dset c.incar "LSOL" (.s ".TRUE.")) sp).2 with
        | some e => simp [solSetupCal, hj, hlp] at h
        | none =>
            cases hd : c.old_job_dir_list with
            | nil => simp [solSetupCal, hj, hlp, hd] at h
            | cons d0 ds =>
                by_cases hw : fs (d0 ++ "/" ++ "WAVECAR") = true
                · simp [solSetupCal, hj, hlp, hd, hw]
                · simp [solSetupCal, hj, hlp, hd, hw] at h

/-- Witness for C9: the generic step sanitizes `gen1/run.1` to
`gen1_run_1` under `STATIC`; the solvation step derives `a` under `SOL`. -/
theorem C9_job_dir_convention_witness :
    (genSetupCal (fun p => p == "g1/CONTCAR") "Meas" c1wCal).addJobs =
      ["Meas/gen1_run_1/STATIC"] ∧
    (solSetupCal c4Fs "MeasSol" [] c4Cal).addJobs = ["MeasSol/a/SOL"] := by
  refine ⟨?_, ?_⟩
  · rw [C9_job_dir_convention.1 (fun p => p == "g1/CONTCAR") "Meas" c1wCal
      (by decide)]
    decide
  · rw [C9_job_dir_convention.2 c4Fs "MeasSol" [] c4Cal (by decide)]
    decide

/-- C3 (code bug): constructing a `Measurement` over a non-empty handle
list raises `NameError` on the first handle — line 59 reads
`cal.job_dir_list` but the loop variable is `obj` and `cal` is unbound —
after that handle's `jobs` were archived into `old_jobs` and reset, but
with its `old_job_dir_list` not archived (still empty) and its
`job_dir_list` not reset (still `["dA"]`); the second handle is never
touched. -/
theorem C3_init_raises_name_error :
    (measurementInitLoop [c3CalA, c3CalB]).2 = some (.nameError "cal") ∧
    (measurementInitLoop [c3CalA, c3CalB]).1 =
      [{ incar := [], old_jobs := [⟨"jA"⟩], old_job_dir_list := [],
         jobs := [], job_dir_list := ["dA"], poscar := none, system := none,
         kind := .other }] := by
  decide

/-- C2 (code bug): `make_measurements` can never compute the binding
energy -1 of the spec's example.  On the example's handles (whose pending
runs would supply the energies -7, -1, -10), the slab loop's first
`get_energy` call raises `NameError` on the unbound name `MPINTVaspDrone`,
before any table entry exists; and even when every `get_energy` call
returns (the same handles with no pending directories), the binding-energy
line subtracts Python lists and raises `TypeError` (with `E_binding` never
initialized either), so the claimed value is unreachable both ways. -/
theorem C2_binding_energy_raises :
    strMiller [1, 0, 0] = "[1, 0, 0]" ∧
    (make_measurements [c2Slab, c2Ligand, c2Iface]).2 =
      some (.nameError "MPINTVaspDrone") ∧
    (make_measurements [c2Slab, c2Ligand, c2Iface]).1 = ([], [], []) ∧
    (make_measurements [c2SlabE, c2LigandE, c2IfaceE]).2 =
      some (.typeError "unsupported operand types for -: list and list") := by
  decide

/-- C5 (code bug): with handles whose `get_energy` calls return (no
pending directories) and the slab handle absent, the interface's slab key
is missing from `E_slabs` and the measurement fails with a plain
`KeyError` on that key, raised by the lookup before any subtraction — but
with the ligand handle absent (slab present), the missing ligand key is
never detected: the list-subtraction `TypeError` preempts the `E_ligands`
lookup.  And for handles with pending directories, the `NameError` on
`MPINTVaspDrone` inside the first `get_energy` call preempts both. -/
theorem C5_missing_correlation_behaviour :
    (make_measurements [c2LigandE, c2IfaceE]).2 =
      some (.keyError "[1, 0, 0]") ∧
    (make_measurements [c2SlabE, c2IfaceE]).1.2.1 = [] ∧
    (make_measurements [c2SlabE, c2IfaceE]).2 =
      some (.typeError "unsupported operand types for -: list and list") ∧
    (make_measurements [c2Ligand, c2Iface]).2 =
      some (.nameError "MPINTVaspDrone") := by
  decide

/-- The identity update never removes keys already present. -/
theorem identityUpdate_isSome (kind : CalKind) (sys : Option PhysSystem)
    (d : List (String × PyVal)) (k : String)
    (h : (dget d k).isSome) :
    (dget (identityUpdate kind sys d) k).isSome := by
  unfold identityUpdate
  cases sys with
  | none => cases kind <;> simpa using h
  | some s =>
      cases kind with
      | slab => simpa using dget_dset_isSome d "hkl" k _ h
      | iface =>
          simpa using
            dget_dset_isSome (dset d "hkl" (.ints s.miller_index)) "ligand" k _
              (dget_dset_isSome d "hkl" k _ h)
      | molecule => simpa using h
      | other => simpa using h

/-- For an interface handle with a system description, the identity
update records its facet and ligand formula. -/
theorem identityUpdate_iface_keys (s : PhysSystem)
    (d : List (String × PyVal)) :
    dget (identityUpdate .iface (some s) d) "hkl" =
      some (.ints s.miller_index) ∧
    dget (identityUpdate .iface (some s) d) "ligand" =
      some (.s s.ligandFormula) := by
  have h1 : dget (dset (dset d "hkl" (PyVal.ints s.miller_index)) "ligand"
      (PyVal.s s.ligandFormula)) "hkl" = some (PyVal.ints s.miller_index) := by
    rw [dget_dset_ne _ "ligand" "hkl" _ (by decide), dget_dset_self]
  constructor
  · simpa [identityUpdate] using h1
  · simpa [identityUpdate] using
      dget_dset_self (dset d "hkl" (PyVal.ints s.miller_index)) "ligand"
        (PyVal.s s.ligandFormula)

/-- For a slab handle with a system description, the identity update
records its facet. -/
theorem identityUpdate_slab_keys (s : PhysSystem)
    (d : List (String × PyVal)) :
    dget (identityUpdate .slab (some s) d) "hkl" =
      some (.ints s.miller_index) := by
  simpa [identityUpdate] using
    dget_dset_self d "hkl" (PyVal.ints s.miller_index)

/-- Every manifest written while processing one handle is non-empty, and
its contents are the identity update applied to a dict that retains every
key the traversal dict had when the handle started. -/
theorem ifaceInner_manifest_shape (fs : String → Bool) (base : String)
    (kind : CalKind) (sys : Option PhysSystem) :
    ∀ (jdirs : List String) (jobs : List Job) (d0 : List (String × PyVal))
      (m : String × List (String × PyVal)),
    m ∈ (ifaceInner fs base kind sys d0 jobs jdirs).manifests →
    m.2.isEmpty = false ∧
    ∃ d, m.2 = identityUpdate kind sys d ∧
      ∀ k, (dget d0 k).isSome → (dget d k).isSome := by
  intro jdirs
  induction jdirs with
  | nil =>
      intro jobs d0 m hm
      cases jobs <;> simp [ifaceInner] at hm
  | cons jdir rest ih =>
      intro jobs d0 m hm
      cases jobs with
      | nil => simp [ifaceInner] at hm
      | cons j js =>
          by_cases hc : fs (jdir ++ "/" ++ "CONTCAR") = true
          · simp only [ifaceInner, hc, if_true, List.mem_append] at hm
            rcases hm with h1 | h2
            · by_cases he : (identityUpdate kind sys d0).isEmpty
              · simp [he] at h1
              · simp [he] at h1
                subst h1
                exact ⟨by simpa using he, d0, rfl, fun _ h => h⟩
            · obtain ⟨hne, d, hd, hmono⟩ :=
                ih js (identityUpdate kind sys d0) m h2
              exact ⟨hne, d, hd,
                fun k hk => hmono k (identityUpdate_isSome kind sys d0 k hk)⟩
          · simp [ifaceInner, hc] at hm

/-- Every manifest written by the whole interface `setup()` traversal is
non-empty. -/
theorem ifaceSetup_manifests_nonempty (fs : String → Bool) (base : String) :
    ∀ (cals : List Cal) (d0 : List (String × PyVal))
      (m : String × List (String × PyVal)),
    m ∈ (ifaceSetup fs base d0 cals).manifests → m.2.isEmpty = false := by
  intro cals
  induction cals with
  | nil => intro d0 m hm; simp [ifaceSetup] at hm
  | cons c rest ih =>
      intro d0 m hm
      cases herr : (ifaceInner fs base c.kind c.system d0 c.old_jobs
          c.old_job_dir_list).err with
      | some e =>
          simp only [ifaceSetup, herr] at hm
          exact (ifaceInner_manifest_shape fs base c.kind c.system
            c.old_job_dir_list c.old_jobs d0 m (by simpa using hm)).1
      | none =>
          simp only [ifaceSetup, herr, List.mem_append] at hm
          rcases hm with h1 | h2
          · exact (ifaceInner_manifest_shape fs base c.kind c.system
              c.old_job_dir_list c.old_jobs d0 m (by simpa using h1)).1
          · exact ih _ m h2

/-- Counterexample to C10 as stated: an interface handle is processed
first (recording `hkl` and `ligand`), then a slab handle; the slab
handle's `system.json` manifest contains the `ligand` entry `L` carried
over from the interface handle, because `setup()` creates the identity
dict once for the whole traversal. -/
theorem C10_counterexample :
    (ifaceSetup c10Fs "MI" [] [c10Iface, c10Slab]).manifests =
      [("MI/ia/STATIC/system.json",
         [("hkl", .ints [1, 0, 0]), ("ligand", .s "L")]),
       ("MI/sa/STATIC/system.json",
         [("hkl", .ints [0, 1, 1]), ("ligand", .s "L")])] := by
  decide

/-- C10 (amended): the `system.json` manifest written into a handle's new
job directory is written only when the accumulated identity mapping is
non-empty, contains `hkl` with the handle's own facet for slab and
interface handles and additionally `ligand` with the handle's own formula
for interface handles (when the system description is present) — but it is
the single mapping accumulated across the whole `setup()` traversal, so
every key present when the handle started (including keys recorded for
earlier handles) is still present in its manifests. -/
theorem C10_manifest_contents :
    (∀ (fs : String → Bool) (base : String) (d0 : List (String × PyVal))
       (cals : List Cal) (m : String × List (String × PyVal)),
      m ∈ (ifaceSetup fs base d0 cals).manifests → m.2.isEmpty = false) ∧
    (∀ (fs : String → Bool) (base : String) (s : PhysSystem)
       (d0 : List (String × PyVal)) (jobs : List Job) (jdirs : List String)
       (m : String × List (String × PyVal)),
      m ∈ (ifaceInner fs base .iface (some s) d0 jobs jdirs).manifests →
      dget m.2 "hkl" = some (.ints s.miller_index) ∧
      dget m.2 "ligand" = some (.s s.ligandFormula)) ∧
    (∀ (fs : String → Bool) (base : String) (s : PhysSystem)
       (d0 : List (String × PyVal)) (jobs : List Job) (jdirs : List String)
       (m : String × List (String × PyVal)),
      m ∈ (ifaceInner fs base .slab (some s) d0 jobs jdirs).manifests →
      dget m.2 "hkl" = some (.ints s.miller_index)) ∧
    (∀ (fs : String → Bool) (base : String) (kind : CalKind)
       (sys : Option PhysSystem) (d0 : List (String × PyVal)) (k : String)
       (jobs : List Job) (jdirs : List String)
       (m : String × List (String × PyVal)),
      (dget d0 k).isSome →
      m ∈ (ifaceInner fs base kind sys d0 jobs jdirs).manifests →
      (dget m.2 k).isSome) := by
  refine ⟨fun fs base d0 cals => ifaceSetup_manifests_nonempty fs base cals d0, ?_, ?_, ?_⟩
  · intro fs base s d0 jobs jdirs m hm
    obtain ⟨-, d, hd, -⟩ :=
      ifaceInner_manifest_shape fs base .iface (some s) jdirs jobs d0 m hm
    rw [hd]
    exact identityUpdate_iface_keys s d
  · intro fs base s d0 jobs jdirs m hm
    obtain ⟨-, d, hd, -⟩ :=
      ifaceInner_manifest_shape fs base .slab (some s) jdirs jobs d0 m hm
    rw [hd]
    exact identityUpdate_slab_keys s d
  · intro fs base kind sys d0 k jobs jdirs m hk hm
    obtain ⟨-, d, hd, hmono⟩ :=
      ifaceInner_manifest_shape fs base kind sys jdirs jobs d0 m hm
    rw [hd]
    exact identityUpdate_isSome kind sys d k (hmono k hk)

/-- Witness for the amended C10, at the concrete C10 run: the slab
handle's manifest is non-empty; the interface handle's manifest carries
its own facet and ligand; the slab handle's inner pass (started with the
dict the interface handle left behind) records the slab's facet and keeps
the inherited `ligand` key. -/
theorem C10_manifest_contents_witness :
    (("MI/sa/STATIC/system.json",
        [("hkl", PyVal.ints [0, 1, 1]), ("ligand", PyVal.s "L")]) :
        String × List (String × PyVal)).2.isEmpty = false ∧
    (dget [("hkl", PyVal.ints [1, 0, 0]), ("ligand", PyVal.s "L")] "hkl" =
        some (.ints [1, 0, 0]) ∧
      dget [("hkl", PyVal.ints [1, 0, 0]), ("ligand", PyVal.s "L")] "ligand" =
        some (.s "L")) ∧
    dget [("hkl", PyVal.ints [0, 1, 1]), ("ligand", PyVal.s "L")] "hkl" =
      some (.ints [0, 1, 1]) ∧
    (dget [("hkl", PyVal.ints [0, 1, 1]), ("ligand", PyVal.s "L")]
      "ligand").isSome :=
  ⟨C10_manifest_contents.1 c10Fs "MI" [] [c10Iface, c10Slab]
      ("MI/sa/STATIC/system.json",
        [("hkl", PyVal.ints [0, 1, 1]), ("ligand", PyVal.s "L")]) (by decide),
   C10_manifest_contents.2.1 c10Fs "MI" ⟨[1, 0, 0], "L", 1⟩ [] [⟨"ia"⟩] ["ip"]
      ("MI/ia/STATIC/system.json",
        [("hkl", PyVal.ints [1, 0, 0]), ("ligand", PyVal.s "L")]) (by decide),
   C10_manifest_contents.2.2.1 c10Fs "MI" ⟨[0, 1, 1], "", 0⟩
      [("hkl", PyVal.ints [1, 0, 0]), ("ligand", PyVal.s "L")] [⟨"sa"⟩] ["sp"]
      ("MI/sa/STATIC/system.json",
        [("hkl", PyVal.ints [0, 1, 1]), ("ligand", PyVal.s "L")]) (by decide),
   C10_manifest_contents.2.2.2 c10Fs "MI" .slab (some ⟨[0, 1, 1], "", 0⟩)
      [("hkl", PyVal.ints [1, 0, 0]), ("ligand", PyVal.s "L")] "ligand"
      [⟨"sa"⟩] ["sp"]
      ("MI/sa/STATIC/system.json",
        [("hkl", PyVal.ints [0, 1, 1]), ("ligand", PyVal.s "L")])
      (by decide) (by decide)⟩

end MPInterfaces
